import Mathlib

/-!
Verification development for the knee-rehabilitation coaching core:
protocol decoding, connection/reconnection state machine, orientation
calibration, joint-angle kinematics, gait analysis and repetition counting.

Modelling conventions.
JavaScript numbers are modelled as `JSNum`: an IEEE-754 double is either
NaN, +Infinity, -Infinity or a finite value (finite values are modelled as
exact reals; rounding is irrelevant to the properties treated here, which
are threshold comparisons and exact algebraic identities, but the
non-finite values produced by empty-list reductions are semantically
essential and are modelled faithfully).  Where a code path manipulates
only finite values we use `ℝ` (or `ℚ`/`ℕ` where the code only ever holds
such values) directly.  Stateful classes become explicit state records
threaded through the functions that mutate them.
-/

namespace KneeBuddy

/-- Model of a JavaScript number: NaN, +Infinity, -Infinity or a finite value. -/
inductive JSNum where
  | nan
  | pinf
  | ninf
  | fin (x : ℝ)

namespace JSNum

/-- JavaScript `a < b` (so that JS `a > b` is `lt b a`): any comparison with
NaN is false; -Infinity is below every non-NaN value, +Infinity above. -/
def lt : JSNum → JSNum → Prop
  | nan, _ => False
  | _, nan => False
  | pinf, _ => False
  | _, pinf => True
  | ninf, ninf => False
  | ninf, fin _ => True
  | fin _, ninf => False
  | fin x, fin y => x < y

noncomputable instance (a b : JSNum) : Decidable (lt a b) := by
  cases a <;> cases b <;> first
    | exact instDecidableFalse
    | exact instDecidableTrue
    | exact Real.decidableLT _ _

/-- IEEE negation. -/
def neg : JSNum → JSNum
  | nan => nan
  | pinf => ninf
  | ninf => pinf
  | fin x => fin (-x)

/-- IEEE addition (signed zeros are not distinguished; no property here
depends on the sign of a zero). -/
def add : JSNum → JSNum → JSNum
  | nan, _ => nan
  | _, nan => nan
  | pinf, ninf => nan
  | ninf, pinf => nan
  | pinf, _ => pinf
  | _, pinf => pinf
  | ninf, _ => ninf
  | _, ninf => ninf
  | fin x, fin y => fin (x + y)

/-- IEEE subtraction, `a - b = a + (-b)`. -/
def sub (a b : JSNum) : JSNum := add a (neg b)

/-- IEEE multiplication. -/
noncomputable def mul : JSNum → JSNum → JSNum
  | nan, _ => nan
  | _, nan => nan
  | pinf, pinf => pinf
  | pinf, ninf => ninf
  | ninf, pinf => ninf
  | ninf, ninf => pinf
  | pinf, fin y => if y = 0 then nan else if y < 0 then ninf else pinf
  | fin x, pinf => if x = 0 then nan else if x < 0 then ninf else pinf
  | ninf, fin y => if y = 0 then nan else if y < 0 then pinf else ninf
  | fin x, ninf => if x = 0 then nan else if x < 0 then pinf else ninf
  | fin x, fin y => fin (x * y)

/-- IEEE division (again without signed zeros: a nonzero finite value divided
by zero gives the infinity of its own sign, `0/0` gives NaN). -/
noncomputable def div : JSNum → JSNum → JSNum
  | nan, _ => nan
  | _, nan => nan
  | pinf, pinf => nan
  | pinf, ninf => nan
  | ninf, pinf => nan
  | ninf, ninf => nan
  | pinf, fin y => if y < 0 then ninf else pinf
  | ninf, fin y => if y < 0 then pinf else ninf
  | fin _, pinf => fin 0
  | fin _, ninf => fin 0
  | fin x, fin y =>
      if y = 0 then (if x = 0 then nan else if x < 0 then ninf else pinf)
      else fin (x / y)

/-- JavaScript `Math.abs`. -/
def abs : JSNum → JSNum
  | nan => nan
  | pinf => pinf
  | ninf => pinf
  | fin x => fin |x|

/-- JavaScript `Math.sqrt` (NaN on negative input). -/
noncomputable def sqrt : JSNum → JSNum
  | nan => nan
  | pinf => pinf
  | ninf => nan
  | fin x => if x < 0 then nan else fin (Real.sqrt x)

/-- JavaScript `Math.pow(x, 2)`. -/
def pow2 : JSNum → JSNum
  | nan => nan
  | pinf => pinf
  | ninf => pinf
  | fin x => fin (x ^ 2)

/-- Two-argument `Math.max` (NaN-propagating). -/
def max2 : JSNum → JSNum → JSNum
  | nan, _ => nan
  | _, nan => nan
  | pinf, _ => pinf
  | _, pinf => pinf
  | ninf, b => b
  | a, ninf => a
  | fin x, fin y => fin (max x y)

/-- Two-argument `Math.min` (NaN-propagating). -/
def min2 : JSNum → JSNum → JSNum
  | nan, _ => nan
  | _, nan => nan
  | ninf, _ => ninf
  | _, ninf => ninf
  | pinf, b => b
  | a, pinf => a
  | fin x, fin y => fin (min x y)

/-- `Math.max(...list)`: JavaScript `Math.max` over a spread array starts
from -Infinity, so the maximum of an empty list is -Infinity. -/
def listMax (l : List JSNum) : JSNum := l.foldl max2 ninf

/-- `Math.min(...list)`: the minimum of an empty list is +Infinity. -/
def listMin (l : List JSNum) : JSNum := l.foldl min2 pinf

/-- `list.reduce((a, b) => a + b, 0)`. -/
def listSum (l : List JSNum) : JSNum := l.foldl add (fin 0)

end JSNum

/-! ## Quaternions and the Three.js math used by the mapper

The repository stores orientations as `{qw, qx, qy, qz}` records and converts
them with `toThreeQuaternion(q) = new ThreeQuaternion(q.qx, q.qy, q.qz, q.qw)`,
i.e. the component roles are preserved; we therefore work directly on the
record.  All finite-float arithmetic is modelled exactly over `ℝ`. -/

/-- `Quaternion` record from `src/types/sensorData.ts`. -/
@[ext]
structure Quat where
  qw : ℝ
  qx : ℝ
  qy : ℝ
  qz : ℝ

/-- Three.js `Quaternion.multiplyQuaternions(a, b)` (`a.multiply(b)` computes
`a * b` with this formula). -/
def quatMul (a b : Quat) : Quat :=
  { qw := a.qw * b.qw - a.qx * b.qx - a.qy * b.qy - a.qz * b.qz
    qx := a.qx * b.qw + a.qw * b.qx + a.qy * b.qz - a.qz * b.qy
    qy := a.qy * b.qw + a.qw * b.qy + a.qz * b.qx - a.qx * b.qz
    qz := a.qz * b.qw + a.qw * b.qz + a.qx * b.qy - a.qy * b.qx }

/-- Three.js `Quaternion.invert`, which is the conjugate (the inverse for
unit-length quaternions). -/
def quatConj (q : Quat) : Quat := ⟨q.qw, -q.qx, -q.qy, -q.qz⟩

/-- Three.js `Quaternion.dot`. -/
def quatDot (a b : Quat) : ℝ := a.qw * b.qw + a.qx * b.qx + a.qy * b.qy + a.qz * b.qz

/-- Componentwise negation `(-x, -y, -z, -w)` as in `qi.set(-qi.x, ...)`. -/
def quatNeg (q : Quat) : Quat := ⟨-q.qw, -q.qx, -q.qy, -q.qz⟩

/-- Three.js `Quaternion.normalize`: divide by the length, or yield the
identity-like `(x,y,z,w) = (0,0,0,1)` when the length is zero. -/
noncomputable def quatNormalize (q : Quat) : Quat :=
  let l := Real.sqrt (q.qw * q.qw + q.qx * q.qx + q.qy * q.qy + q.qz * q.qz)
  if l = 0 then ⟨1, 0, 0, 0⟩ else ⟨q.qw / l, q.qx / l, q.qy / l, q.qz / l⟩

/-- Three.js `MathUtils.clamp(value, min, max) = Math.max(min, Math.min(max, value))`. -/
def clamp (v lo hi : ℝ) : ℝ := max lo (min hi v)

/-- JavaScript `Math.atan2(y, x)` on real arguments. -/
noncomputable def atan2 (y x : ℝ) : ℝ :=
  if 0 < x then Real.arctan (y / x)
  else if x < 0 then
    (if 0 ≤ y then Real.arctan (y / x) + Real.pi else Real.arctan (y / x) - Real.pi)
  else
    (if 0 < y then Real.pi / 2 else if y < 0 then -(Real.pi / 2) else 0)

/-- Three.js `new Euler().setFromQuaternion(q)` with the default 'XYZ' order:
build the rotation matrix of `q` (`Matrix4.makeRotationFromQuaternion`, which
does not normalize its input) and extract intrinsic X-Y-Z Euler angles from it
(`Euler.setFromRotationMatrix`).  Returns `(eulerX, eulerY, eulerZ)`. -/
noncomputable def eulerXYZ (q : Quat) : ℝ × ℝ × ℝ :=
  let x := q.qx; let y := q.qy; let z := q.qz; let w := q.qw
  let x2 := x + x; let y2 := y + y; let z2 := z + z
  let xx := x * x2; let xy := x * y2; let xz := x * z2
  let yy := y * y2; let yz := y * z2; let zz := z * z2
  let wx := w * x2; let wy := w * y2; let wz := w * z2
  let m11 := 1 - (yy + zz); let m12 := xy - wz; let m13 := xz + wy
  let m22 := 1 - (xx + zz); let m23 := yz - wx
  let m32 := yz + wx; let m33 := 1 - (xx + yy)
  let ey := Real.arcsin (clamp m13 (-1) 1)
  if |m13| < 0.9999999 then (atan2 (-m23) m33, ey, atan2 (-m12) m11)
  else (atan2 m32 m22, ey, 0)

/-- `SensorDataMapper.calculateJointAngle(q1, q2)`: relative rotation
`q1.clone().invert().multiply(q2)`, then the largest Euler-axis magnitude in
degrees. -/
noncomputable def calculateJointAngle (q1 q2 : Quat) : ℝ :=
  let relative := quatMul (quatConj q1) q2
  let e := eulerXYZ relative
  let xAngle := |e.1 * 180 / Real.pi|
  let yAngle := |e.2.1 * 180 / Real.pi|
  let zAngle := |e.2.2 * 180 / Real.pi|
  max xAngle (max yAngle zAngle)

/-- `Number.EPSILON` = 2⁻⁵². -/
noncomputable def jsEpsilon : ℝ := 1 / 2 ^ 52

/-- Three.js `Quaternion.slerp(qb, t)` run on `qa` (the mutated receiver),
embedded branch for branch. -/
noncomputable def slerp (qa qb : Quat) (t : ℝ) : Quat :=
  if t = 0 then qa
  else if t = 1 then qb
  else
    let cosHalfTheta := qa.qw * qb.qw + qa.qx * qb.qx + qa.qy * qb.qy + qa.qz * qb.qz
    let qr := if cosHalfTheta < 0 then quatNeg qb else qb
    let c := if cosHalfTheta < 0 then -cosHalfTheta else cosHalfTheta
    if 1 ≤ c then qa
    else
      let sqrSinHalfTheta := 1 - c * c
      if sqrSinHalfTheta ≤ jsEpsilon then
        let s := 1 - t
        quatNormalize ⟨s * qa.qw + t * qr.qw, s * qa.qx + t * qr.qx,
                       s * qa.qy + t * qr.qy, s * qa.qz + t * qr.qz⟩
      else
        let sinHalfTheta := Real.sqrt sqrSinHalfTheta
        let halfTheta := atan2 sinHalfTheta c
        let rA := Real.sin ((1 - t) * halfTheta) / sinHalfTheta
        let rB := Real.sin (t * halfTheta) / sinHalfTheta
        ⟨qa.qw * rA + qr.qw * rB, qa.qx * rA + qr.qx * rB,
         qa.qy * rA + qr.qy * rB, qa.qz * rA + qr.qz * rB⟩

/-! ## Sensor data model (`src/types/sensorData.ts`) -/

/-- The fixed, closed set of five sensor identities. -/
inductive SensorId where
  | pelvis
  | right_thigh
  | right_shin
  | left_thigh
  | left_shin
deriving DecidableEq

/-- The `sensors` record of a `SensorPacket`. -/
@[ext]
structure SensorSet where
  pelvis : Quat
  right_thigh : Quat
  right_shin : Quat
  left_thigh : Quat
  left_shin : Quat

/-- Packet status enum. -/
inductive PacketStatus where
  | ok
  | warning
  | error
deriving DecidableEq

/-- `SensorPacket` from `src/types/sensorData.ts`. -/
@[ext]
structure SensorPacket where
  timestamp : ℝ
  sensors : SensorSet
  left_wt : ℝ
  right_wt : ℝ
  battery : ℝ
  status : PacketStatus

/-- Read a sensor reading off the `sensors` record by identity. -/
def SensorSet.get (s : SensorSet) : SensorId → Quat
  | .pelvis => s.pelvis
  | .right_thigh => s.right_thigh
  | .right_shin => s.right_shin
  | .left_thigh => s.left_thigh
  | .left_shin => s.left_shin

/-! ## SensorDataMapper (`src/utils/sensorDataMapper.ts`)

The mapper's two `Map<string, _>` fields are modelled as total functions from
`SensorId` (a missing smoothing buffer and the empty buffer the code then
creates behave identically). -/

/-- Mutable state of the `SensorDataMapper` singleton. -/
structure MapperState where
  calibrationOffsets : SensorId → Option Quat
  smoothingBuffer : SensorId → List Quat

/-- Fresh mapper state (also the result of `clearCalibration`). -/
def MapperState.empty : MapperState := ⟨fun _ => none, fun _ => []⟩

/-- `applyCalibration(q, sensorId)`: with a stored offset the code builds
`qThree = reading`, `offsetThree = offset`, runs `offsetThree.invert()`
(conjugate) and then `qThree.multiply(offsetThree)`, i.e. it returns
`reading ⊗ offset*` — the reading right-composed with the conjugated offset.
Without a stored offset, the reading is returned unchanged. -/
def applyCalibration (st : MapperState) (q : Quat) (sensorId : SensorId) : Quat :=
  match st.calibrationOffsets sensorId with
  | none => q
  | some offset => quatMul q (quatConj offset)

/-- Default quaternion, only used to give `List.headI` a value on the empty
list — a case the smoothing code never reaches (the buffer was just pushed
to). -/
instance : Inhabited Quat := ⟨⟨1, 0, 0, 0⟩⟩

/-- `smoothQuaternion(q, sensorId)`: push into the capacity-5 FIFO
(`shift()` drops the oldest when the buffer exceeds 5), then blend the buffer
by iterated shortest-path slerp with weight `1/(i+1)`.  Returns the smoothed
quaternion together with the updated mapper state. -/
noncomputable def smoothQuaternion (st : MapperState) (q : Quat) (sensorId : SensorId) :
    Quat × MapperState :=
  let buffer0 := st.smoothingBuffer sensorId ++ [q]
  let buffer := if 5 < buffer0.length then buffer0.tail else buffer0
  let st' : MapperState :=
    { st with smoothingBuffer := fun s => if s = sensorId then buffer else st.smoothingBuffer s }
  if buffer.length = 1 then (q, st')
  else
    let first := buffer.headI
    let result := (buffer.tail.enum).foldl
      (fun acc iq =>
        let i : ℕ := iq.1 + 1
        let qi := iq.2
        let weight : ℝ := 1 / ((i : ℝ) + 1)
        let qi' := if quatDot acc qi < 0 then quatNeg qi else qi
        slerp acc qi' weight)
      first
    (result, st')

/-- `isValidPacket(packet)`: every one of the five readings must have
magnitude within 0.1 of 1 (the code early-returns `false` as soon as
`Math.abs(mag - 1.0) > 0.1` for some reading). -/
noncomputable def quatMagnitude (q : Quat) : ℝ :=
  Real.sqrt (q.qw * q.qw + q.qx * q.qx + q.qy * q.qy + q.qz * q.qz)

/-- Packet validity predicate of `SensorDataMapper.isValidPacket`. -/
def isValidPacket (p : SensorPacket) : Prop :=
  ∀ sid : SensorId, ¬(|quatMagnitude (p.sensors.get sid) - 1| > 0.1)

noncomputable instance (p : SensorPacket) : Decidable (isValidPacket p) :=
  Classical.dec _

/-- One iteration of the `processSensorPacket` loop body for a single sensor
key: calibration, then optional smoothing. -/
noncomputable def processOne (st : MapperState) (q : Quat) (sid : SensorId)
    (enableSmoothing : Bool) : Quat × MapperState :=
  let q1 := applyCalibration st q sid
  if enableSmoothing then smoothQuaternion st q1 sid else (q1, st)

/-- The `for (const [key, quaternion] of Object.entries(packet.sensors))` loop
of `processSensorPacket`, in object-literal insertion order
(pelvis, right_thigh, right_shin, left_thigh, left_shin). -/
noncomputable def processSensors (st : MapperState) (s : SensorSet)
    (enableSmoothing : Bool) : SensorSet × MapperState :=
  let r1 := processOne st s.pelvis .pelvis enableSmoothing
  let r2 := processOne r1.2 s.right_thigh .right_thigh enableSmoothing
  let r3 := processOne r2.2 s.right_shin .right_shin enableSmoothing
  let r4 := processOne r3.2 s.left_thigh .left_thigh enableSmoothing
  let r5 := processOne r4.2 s.left_shin .left_shin enableSmoothing
  (⟨r1.1, r2.1, r3.1, r4.1, r5.1⟩, r5.2)

/-- `processSensorPacket(packet, enableSmoothing)`.

The source starts with `const processed = { ...packet }` — a SHALLOW copy
whose `sensors` field still references the caller's `sensors` record — and
then executes `processed.sensors[key] = q` for each key, which writes into
that shared record.  The model therefore returns a triple
`(returned packet, the caller's input packet as observable after the call,
new mapper state)`: the returned packet is a fresh top-level record carrying
the processed readings, and the input packet, whose top-level fields were
never written, ends up carrying exactly the same processed readings through
the shared `sensors` record. -/
noncomputable def processSensorPacket (st : MapperState) (packet : SensorPacket)
    (enableSmoothing : Bool) : SensorPacket × SensorPacket × MapperState :=
  let r := processSensors st packet.sensors enableSmoothing
  ({ packet with sensors := r.1 }, { packet with sensors := r.1 }, r.2)

/-- `calibrate(packet)`: wholesale capture of the packet's five readings as
the new calibration offsets. -/
def calibrate (st : MapperState) (p : SensorPacket) : MapperState :=
  { st with calibrationOffsets := fun sid => some (p.sensors.get sid) }

/-! ## Gait analysis types (`src/types/gaitAnalysis.ts`)

Human-readable `description` strings (built with `toFixed` formatting, and the
only place the heavier side of a weight imbalance is reported) are omitted
from the model; every structurally consumed field is kept. -/

inductive DiagnosisType where
  | LIMITED_ROM_RIGHT
  | LIMITED_ROM_LEFT
  | ASYMMETRIC_GAIT
  | UNSTABLE_KNEE
  | WEIGHT_IMBALANCE
  | NORMAL
deriving DecidableEq

inductive SeverityLevel where
  | normal
  | mild
  | moderate
  | severe
deriving DecidableEq

inductive Side where
  | left
  | right
  | both
deriving DecidableEq

@[ext]
structure GaitDiagnosis where
  type : DiagnosisType
  severity : SeverityLevel
  affectedSide : Option Side
deriving DecidableEq

inductive Priority where
  | high
  | medium
  | low
deriving DecidableEq

@[ext]
structure RecommendedExercise where
  exerciseId : String
  exerciseName : String
  reason : String
  priority : Priority
deriving DecidableEq

/-- `GaitMetrics`; every float-valued metric field is a `JSNum` because the
analyzer can produce infinities and NaNs on degenerate sessions. -/
structure GaitMetrics where
  rightKneeROM : JSNum
  leftKneeROM : JSNum
  asymmetryScore : JSNum
  lateralStabilityScore : JSNum
  weightDistributionScore : JSNum
  stepCount : ℕ
  testDuration : JSNum
  averageRightKnee : JSNum
  averageLeftKnee : JSNum
  averageRightWeight : JSNum
  averageLeftWeight : JSNum

inductive OverallStatus where
  | good
  | fair
  | needs_attention
deriving DecidableEq

structure GaitAnalysisResult where
  metrics : GaitMetrics
  diagnoses : List GaitDiagnosis
  recommendations : List RecommendedExercise
  timestamp : ℝ
  overallStatus : OverallStatus

/-! ## GaitAnalyzer (`gaitAnalyzer.ts`) -/

/-- Mutable state of the `GaitAnalyzer` singleton. -/
structure GaitState where
  sensorHistory : List SensorPacket
  startTime : ℝ
  lastPelvisPitch : ℝ
  stepCount : ℕ
  weightLeft : List ℝ
  weightRight : List ℝ

/-- `reset()`: fresh session state at time `now` (`startTime = Date.now()`). -/
def GaitState.reset (now : ℝ) : GaitState :=
  { sensorHistory := [], startTime := now, lastPelvisPitch := 0, stepCount := 0
    weightLeft := [], weightRight := [] }

/-- The pelvis "pitch": Euler-X of the packet's pelvis orientation. -/
noncomputable def pelvisPitch (p : SensorPacket) : ℝ := (eulerXYZ p.sensors.pelvis).1

/-- `collectGaitData(packet)`: invalid packets are a no-op returning the
unchanged step count; valid packets are appended to the session history and
weight history, the step counter is incremented on a rising pelvis-pitch edge
of more than 0.15 rad once the (post-push) history holds at least two
samples, and `lastPelvisPitch` is updated on every (valid) call. -/
noncomputable def collectGaitData (s : GaitState) (p : SensorPacket) : GaitState × ℕ :=
  if isValidPacket p then
    let hist := s.sensorHistory ++ [p]
    let currentPitch := pelvisPitch p
    let step :=
      if 1 < hist.length then
        (if |currentPitch - s.lastPelvisPitch| > 0.15 ∧ currentPitch > s.lastPelvisPitch
         then s.stepCount + 1 else s.stepCount)
      else s.stepCount
    ({ s with sensorHistory := hist
              weightLeft := s.weightLeft ++ [p.left_wt]
              weightRight := s.weightRight ++ [p.right_wt]
              lastPelvisPitch := currentPitch
              stepCount := step }, step)
  else (s, s.stepCount)

/-- Per-packet right-knee joint angle used by the ROM/asymmetry passes. -/
noncomputable def rightAnglesOf (s : GaitState) : List JSNum :=
  s.sensorHistory.map fun p =>
    .fin (calculateJointAngle p.sensors.right_thigh p.sensors.right_shin)

/-- Per-packet left-knee joint angle used by the ROM/asymmetry passes. -/
noncomputable def leftAnglesOf (s : GaitState) : List JSNum :=
  s.sensorHistory.map fun p =>
    .fin (calculateJointAngle p.sensors.left_thigh p.sensors.left_shin)

/-- `analyzeRangeOfMotion()`: per-leg `Math.max(...angles) - Math.min(...angles)`
(so `-Infinity` on an empty session). -/
noncomputable def analyzeRangeOfMotion (s : GaitState) : JSNum × JSNum :=
  (JSNum.sub (JSNum.listMax (rightAnglesOf s)) (JSNum.listMin (rightAnglesOf s)),
   JSNum.sub (JSNum.listMax (leftAnglesOf s)) (JSNum.listMin (leftAnglesOf s)))

/-- Mean of a `JSNum` list as the code computes it:
`list.reduce((a,b) => a + b, 0) / list.length`. -/
noncomputable def jsMean (l : List JSNum) : JSNum :=
  JSNum.div (JSNum.listSum l) (.fin l.length)

/-- `analyzeAsymmetry()`: `(score, avgRight, avgLeft)` where the score is the
absolute ROM difference. -/
noncomputable def analyzeAsymmetry (s : GaitState) : JSNum × JSNum × JSNum :=
  let rightROM := JSNum.sub (JSNum.listMax (rightAnglesOf s)) (JSNum.listMin (rightAnglesOf s))
  let leftROM := JSNum.sub (JSNum.listMax (leftAnglesOf s)) (JSNum.listMin (leftAnglesOf s))
  (JSNum.abs (JSNum.sub rightROM leftROM), jsMean (rightAnglesOf s), jsMean (leftAnglesOf s))

/-- Per-thigh off-sagittal magnitude `sqrt(eulerY² + eulerZ²)`; the session
pools right then left per packet. -/
noncomputable def lateralMovements (s : GaitState) : List JSNum :=
  s.sensorHistory.flatMap fun p =>
    let re := eulerXYZ p.sensors.right_thigh
    let le := eulerXYZ p.sensors.left_thigh
    [.fin (Real.sqrt (re.2.1 ^ 2 + re.2.2 ^ 2)), .fin (Real.sqrt (le.2.1 ^ 2 + le.2.2 ^ 2))]

/-- `analyzeLateralStability()`: standard deviation of the pooled lateral
movement population (NaN on an empty session). -/
noncomputable def analyzeLateralStability (s : GaitState) : JSNum :=
  let l := lateralMovements s
  let mean := jsMean l
  let variance :=
    JSNum.div (l.foldl (fun a b => JSNum.add a (JSNum.pow2 (JSNum.sub b mean))) (.fin 0))
      (.fin l.length)
  JSNum.sqrt variance

/-- The trailing moving average (window 5) applied to each weight channel. -/
noncomputable def smoothWeight (data : List ℝ) : List ℝ :=
  (List.range data.length).map fun i =>
    let start := max 0 (i - 4)
    let window := (data.drop start).take (i + 1 - start)
    window.sum / window.length

/-- `analyzeWeightDistribution()`: `(score, avgRight, avgLeft)`; zeros when a
weight history is empty, otherwise the absolute difference of percent shares
of the smoothed channel means. -/
noncomputable def analyzeWeightDistribution (s : GaitState) : JSNum × JSNum × JSNum :=
  if s.weightLeft.length = 0 ∨ s.weightRight.length = 0 then (.fin 0, .fin 0, .fin 0)
  else
    let smoothedLeft := smoothWeight s.weightLeft
    let smoothedRight := smoothWeight s.weightRight
    let avgLeft : JSNum := .fin (smoothedLeft.sum / smoothedLeft.length)
    let avgRight : JSNum := .fin (smoothedRight.sum / smoothedRight.length)
    let totalAvg := JSNum.add avgLeft avgRight
    let leftPercent := JSNum.mul (JSNum.div avgLeft totalAvg) (.fin 100)
    let rightPercent := JSNum.mul (JSNum.div avgRight totalAvg) (.fin 100)
    (JSNum.abs (JSNum.sub leftPercent rightPercent), avgRight, avgLeft)

/-- Severity ternary used for both ROM diagnoses:
severe below 40, moderate below 45, else mild. -/
noncomputable def romSeverity (rom : JSNum) : SeverityLevel :=
  if JSNum.lt rom (.fin 40) then .severe
  else if JSNum.lt rom (.fin 45) then .moderate else .mild

/-- `generateDiagnosis(metrics)`: the threshold table, with the pushes in
source order — ROM right, ROM left, asymmetry, lateral stability, then the
`diagnoses.length === 0` Normal check, and only AFTER that the
weight-distribution check. -/
noncomputable def generateDiagnosis (m : GaitMetrics) : List GaitDiagnosis :=
  let d1 : List GaitDiagnosis :=
    if JSNum.lt m.rightKneeROM (.fin 50) then
      [⟨.LIMITED_ROM_RIGHT, romSeverity m.rightKneeROM, some .right⟩] else []
  let d2 :=
    if JSNum.lt m.leftKneeROM (.fin 50) then
      d1 ++ [⟨.LIMITED_ROM_LEFT, romSeverity m.leftKneeROM, some .left⟩] else d1
  let d3 :=
    if JSNum.lt (.fin 10) m.asymmetryScore then
      d2 ++ [⟨.ASYMMETRIC_GAIT,
             (if JSNum.lt (.fin 15) m.asymmetryScore then .moderate else .mild), some .both⟩]
    else d2
  let d4 :=
    if JSNum.lt (.fin 0.25) m.lateralStabilityScore then
      d3 ++ [⟨.UNSTABLE_KNEE,
             (if JSNum.lt (.fin (0.25 * 1.5)) m.lateralStabilityScore then .moderate else .mild),
             some .both⟩]
    else d3
  let d5 := if d4.length = 0 then d4 ++ [⟨.NORMAL, .normal, none⟩] else d4
  if JSNum.lt (.fin 15) m.weightDistributionScore then
    d5 ++ [⟨.WEIGHT_IMBALANCE,
          (if JSNum.lt (.fin 25) m.weightDistributionScore then .moderate else .mild), some .both⟩]
  else d5

/-! ### recommendExercises -/

/-- `priorityOrder = { high: 3, medium: 2, low: 1 }`. -/
def priorityOrder : Priority → ℕ
  | .high => 3
  | .medium => 2
  | .low => 1

/-- The `exerciseMap.set(...)` calls executed for one diagnosis, in source
order, as (key, value) pairs. -/
def candidatesFor : DiagnosisType → List (String × RecommendedExercise)
  | .LIMITED_ROM_RIGHT =>
      [("1", ⟨"1", "Heel Slides",
        "Improves knee flexion range of motion through controlled movement", .high⟩),
       ("5", ⟨"5", "Short Arc Quads",
        "Strengthens quadriceps while working through limited ROM", .high⟩)]
  | .LIMITED_ROM_LEFT =>
      [("1", ⟨"1", "Heel Slides",
        "Improves knee flexion range of motion through controlled movement", .high⟩),
       ("5", ⟨"5", "Short Arc Quads",
        "Strengthens quadriceps while working through limited ROM", .high⟩)]
  | .ASYMMETRIC_GAIT =>
      [("3", ⟨"3", "Straight Leg Raises",
        "Builds unilateral strength to correct muscle imbalances", .medium⟩),
       ("2", ⟨"2", "Quad Sets", "Improves muscle activation symmetry", .medium⟩)]
  | .UNSTABLE_KNEE =>
      [("6", ⟨"6", "Hamstring Curls",
        "Strengthens hamstrings for better knee stability and control", .high⟩),
       ("2", ⟨"2", "Quad Sets", "Improves muscle control and joint stability", .medium⟩)]
  | .WEIGHT_IMBALANCE =>
      [("3", ⟨"3", "Straight Leg Raises",
        "Improves single-leg strength to correct weight distribution imbalance", .high⟩),
       ("1", ⟨"1", "Heel Slides", "Helps restore balanced movement patterns", .medium⟩)]
  | .NORMAL => []

/-- All `set` operations of `recommendExercises` for a diagnosis list. -/
def candidateStream (ds : List GaitDiagnosis) : List (String × RecommendedExercise) :=
  ds.flatMap fun d => candidatesFor d.type

/-- JavaScript `Map.set` on an insertion-ordered association list: an existing
key keeps its position and gets the new value; a new key is appended. -/
def mapSet (m : List (String × RecommendedExercise)) (k : String)
    (v : RecommendedExercise) : List (String × RecommendedExercise) :=
  if m.any (fun kv => kv.1 = k) then m.map (fun kv => if kv.1 = k then (k, v) else kv)
  else m ++ [(k, v)]

/-- The `exerciseMap` after all `set` calls. -/
def jsMapFold (stream : List (String × RecommendedExercise)) :
    List (String × RecommendedExercise) :=
  stream.foldl (fun m kv => mapSet m kv.1 kv.2) []

/-- Key test on map entries / candidate pairs. -/
def keyeq (k : String) (kv : String × RecommendedExercise) : Bool := kv.1 = k

/-- The descending-priority order used by the final
`sort((a, b) => priorityOrder[b.priority] - priorityOrder[a.priority])`. -/
def priDesc (a b : RecommendedExercise) : Prop :=
  priorityOrder b.priority ≤ priorityOrder a.priority

instance : DecidableRel priDesc := fun a b =>
  inferInstanceAs (Decidable (priorityOrder b.priority ≤ priorityOrder a.priority))

instance : IsTotal RecommendedExercise priDesc :=
  ⟨fun x y => le_total (priorityOrder y.priority) (priorityOrder x.priority)⟩

instance : IsTrans RecommendedExercise priDesc :=
  ⟨fun _ _ _ h1 h2 => le_trans h2 h1⟩

/-- `recommendExercises(diagnoses)`: fold every candidate into the map
(last write wins), take `Array.from(map.values())` in insertion order, and
stably sort by descending priority (`Array.prototype.sort` is stable; it is
modelled by insertion sort, which is stable). -/
def recommendExercises (ds : List GaitDiagnosis) : List RecommendedExercise :=
  List.insertionSort priDesc ((jsMapFold (candidateStream ds)).map Prod.snd)

/-- `analyze()`: assemble metrics, diagnose, recommend, and derive the
overall status (`now` stands for `Date.now()`). -/
noncomputable def analyze (s : GaitState) (now : ℝ) : GaitAnalysisResult :=
  let rom := analyzeRangeOfMotion s
  let asymmetry := analyzeAsymmetry s
  let lateralStability := analyzeLateralStability s
  let weightDistribution := analyzeWeightDistribution s
  let metrics : GaitMetrics :=
    { rightKneeROM := rom.1
      leftKneeROM := rom.2
      asymmetryScore := asymmetry.1
      lateralStabilityScore := lateralStability
      weightDistributionScore := weightDistribution.1
      stepCount := s.stepCount
      testDuration := .fin ((now - s.startTime) / 1000)
      averageRightKnee := asymmetry.2.1
      averageLeftKnee := asymmetry.2.2
      averageRightWeight := weightDistribution.2.1
      averageLeftWeight := weightDistribution.2.2 }
  let diagnoses := generateDiagnosis metrics
  let recommendations := recommendExercises diagnoses
  let hasSevere := diagnoses.any fun d => d.severity = .severe
  let hasModerate := diagnoses.any fun d => d.severity = .moderate
  { metrics := metrics
    diagnoses := diagnoses
    recommendations := recommendations
    timestamp := now
    overallStatus :=
      if hasSevere then .needs_attention else if hasModerate then .fair else .good }

/-! ## BluetoothService: reconnection backoff (`bluetoothService.ts`)

Only the fields that the reconnection logic reads and writes are modelled.
Delays are in integral milliseconds, as in the source
(`Math.min(1000 * Math.pow(2, attempts), 10000)` on small naturals is exact). -/

/-- `maxReconnectAttempts = 5`. -/
def maxReconnectAttempts : ℕ := 5

/-- Connection-manager state relevant to reconnection. -/
structure BTState where
  isConnected : Bool
  isConnecting : Bool
  reconnectAttempts : ℕ
  reconnectTimeout : Option ℕ

/-- Field initializers of the `BluetoothService` class. -/
def BTState.init : BTState :=
  { isConnected := false, isConnecting := false, reconnectAttempts := 0,
    reconnectTimeout := none }

/-- `onDisconnected()`, the unsolicited-drop handler: below the cap it
schedules a reconnect timer with delay `min(1000 * 2^attempts, 10000)` and
increments the attempt counter; at the cap it schedules nothing and surfaces
the terminal "Reconnection Failed" toast.  Returns
`(new state, scheduled delay if any, terminal-failure notification)`. -/
def onDisconnected (s : BTState) : BTState × Option ℕ × Bool :=
  let s0 : BTState := { s with isConnected := false, isConnecting := false }
  if s0.reconnectAttempts < maxReconnectAttempts then
    let delay := min (1000 * 2 ^ s0.reconnectAttempts) 10000
    ({ s0 with reconnectAttempts := s0.reconnectAttempts + 1,
               reconnectTimeout := some delay }, some delay, false)
  else (s0, none, true)

/-- The state update `connect()` performs on success:
`this.reconnectAttempts = 0` and the connected-state transition. -/
def connectSuccess (s : BTState) : BTState :=
  { s with reconnectAttempts := 0, isConnected := true, isConnecting := false }

/-- Run `n` consecutive unsolicited drops, collecting for each the scheduled
delay (if any) and whether the terminal failure was surfaced. -/
def runDrops (s : BTState) : ℕ → BTState × List (Option ℕ × Bool)
  | 0 => (s, [])
  | n + 1 =>
      let r := runDrops s n
      let d := onDisconnected r.1
      (d.1, r.2 ++ [(d.2.1, d.2.2)])

/-! ## BluetoothService: legacy JSON quaternion parsing

`parseQuaternion(data)` accepts an object `{qw,qx,qy,qz}` or a string
`"qw,qx,qy,qz"`.  The string path is modelled from the point after
`data.split(',').map(parseFloat)`: each component is a JavaScript number that
is either a finite value or NaN (`parseFloat` failure); a missing component
(short split array, or an absent object field) is `none`.  The `||` defaults
replace any falsy component — NaN, missing, AND the number 0 — by the
identity-quaternion component. -/

/-- One parsed numeric component: a finite value or NaN. -/
inductive JVal where
  | num (x : ℝ)
  | nan

/-- Wire form of a quaternion field in the legacy JSON packet. -/
inductive QuatWire where
  | qstr (parts : List JVal)
  | qobj (qw qx qy qz : Option JVal)
  | other

/-- JavaScript `v || d` for `v` a possibly-missing numeric component:
`undefined`, NaN and 0 are falsy. -/
noncomputable def jsOrDefault (v : Option JVal) (d : ℝ) : ℝ :=
  match v with
  | some (.num x) => if x = 0 then d else x
  | some .nan => d
  | none => d

/-- `BluetoothService.parseQuaternion`. -/
noncomputable def parseQuaternion : QuatWire → Quat
  | .qstr parts =>
      ⟨jsOrDefault parts[0]? 1, jsOrDefault parts[1]? 0,
       jsOrDefault parts[2]? 0, jsOrDefault parts[3]? 0⟩
  | .qobj w x y z => ⟨jsOrDefault w 1, jsOrDefault x 0, jsOrDefault y 0, jsOrDefault z 0⟩
  | .other => ⟨1, 0, 0, 0⟩

/-! ## Repetition detector (`ExercisePlayer.tsx`, live-phase data handler)

A per-set hysteresis state machine over the live joint angle.  Angles and
thresholds are handled as exact numbers (`ℚ`): every comparison involved is
far from the rounding error of the float thresholds. -/

inductive RepState where
  | extended
  | flexed
deriving DecidableEq

/-- `flexedThreshold = targetAngle * 0.3`. -/
def flexedThreshold (target : ℚ) : ℚ := target * 0.3

/-- `extendedThreshold = Math.min(targetAngle + 30, targetAngle * 1.5)`. -/
def extendedThreshold (target : ℚ) : ℚ := min (target + 30) (target * 1.5)

/-- One live sample through the rep-detection branch: returns the next
`repState` and whether this sample completed a repetition (the
flexed→extended transition). -/
def repStep (target : ℚ) (st : RepState) (kneeAngle : ℚ) : RepState × Bool :=
  if st = .extended ∧ kneeAngle > extendedThreshold target then (.flexed, false)
  else if st = .flexed ∧ kneeAngle < flexedThreshold target then (.extended, true)
  else (st, false)

/-- Feed an angle sequence from a given state, collecting the
rep-completed flag of every sample. -/
def runRepFlags (target : ℚ) (st : RepState) : List ℚ → RepState × List Bool
  | [] => (st, [])
  | a :: rest =>
      let r := repStep target st a
      let rec' := runRepFlags target r.1 rest
      (rec'.1, r.2 :: rec'.2)

/-- Number of completed reps over an angle sequence started in the
`extended` state. -/
def countReps (target : ℚ) (angles : List ℚ) : ℕ :=
  ((runRepFlags target .extended angles).2.filter id).length

/-! ## Concrete inputs used by witnesses and counterexamples -/

/-- The identity quaternion. -/
def idQuat : Quat := ⟨1, 0, 0, 0⟩

/-- A unit quaternion (half-turn about X) used as a calibration offset. -/
def offsetX : Quat := ⟨0, 1, 0, 0⟩

/-- A unit quaternion (half-turn about Y) used as a reading. -/
def readingY : Quat := ⟨0, 0, 1, 0⟩

/-- Mapper state holding one stored calibration offset, for the pelvis. -/
def cexMapper : MapperState :=
  ⟨fun sid => if sid = .pelvis then some offsetX else none, fun _ => []⟩

/-- A well-formed packet whose five readings are identity quaternions. -/
def idPacket : SensorPacket :=
  ⟨0, ⟨idQuat, idQuat, idQuat, idQuat, idQuat⟩, 30, 40, 100, .ok⟩

/-- Metrics for which only the weight-distribution rule triggers: both ROMs
comfortably normal, no asymmetry, no instability, 20% weight imbalance with
the right side heavier. -/
def cexWeightMetrics : GaitMetrics :=
  { rightKneeROM := .fin 60, leftKneeROM := .fin 60, asymmetryScore := .fin 0
    lateralStabilityScore := .fin 0, weightDistributionScore := .fin 20
    stepCount := 0, testDuration := .fin 0, averageRightKnee := .fin 0
    averageLeftKnee := .fin 0, averageRightWeight := .fin 60, averageLeftWeight := .fin 40 }

/-- Diagnosis list in which exercise id "3" is recommended twice: with
priority high by `WEIGHT_IMBALANCE`, then with priority medium by
`ASYMMETRIC_GAIT`. -/
def cexDiagnoses : List GaitDiagnosis :=
  [⟨.WEIGHT_IMBALANCE, .mild, some .both⟩, ⟨.ASYMMETRIC_GAIT, .mild, some .both⟩]

/-- The four wire components of a legacy quaternion field, in qw-qx-qy-qz
order (string path: the split/parsed parts; object path: the four fields). -/
def wireComponents : QuatWire → Option JVal × Option JVal × Option JVal × Option JVal
  | .qstr parts => (parts[0]?, parts[1]?, parts[2]?, parts[3]?)
  | .qobj w x y z => (w, x, y, z)
  | .other => (none, none, none, none)

/-! ## Helper lemmas -/

/-- The conjugate-times-self product is a pure-scalar quaternion. -/
theorem quatConj_mul_self (q : Quat) :
    quatMul (quatConj q) q = ⟨q.qw ^ 2 + q.qx ^ 2 + q.qy ^ 2 + q.qz ^ 2, 0, 0, 0⟩ := by
  ext <;> simp [quatMul, quatConj] <;> ring

/-- A pure-scalar quaternion has a zero Euler decomposition (its — possibly
unnormalized — rotation matrix is the identity). -/
theorem eulerXYZ_pure_scalar (w : ℝ) : eulerXYZ ⟨w, 0, 0, 0⟩ = (0, 0, 0) := by
  norm_num [eulerXYZ, clamp, atan2, Real.arcsin_zero, Real.arctan_zero]

/-! ## Claim theorems -/

/-- C4: after an unsolicited transport drop the manager schedules reconnection
with delay `min(1000 · 2^attempt, 10000)` ms, the attempt counter starting at
0 and incrementing per retry and capped at 5 attempts; the delays for 5
consecutive drops are exactly [1000, 2000, 4000, 8000, 10000] ms; a 6th
consecutive drop schedules no timer and surfaces the terminal
reconnection-failed notification; and a successful reconnect resets the
attempt counter to 0. -/
theorem reconnectBackoff_spec :
    (∀ s : BTState, s.reconnectAttempts < maxReconnectAttempts →
      (onDisconnected s).2.1 = some (min (1000 * 2 ^ s.reconnectAttempts) 10000) ∧
      (onDisconnected s).1.reconnectAttempts = s.reconnectAttempts + 1 ∧
      (onDisconnected s).2.2 = false) ∧
    (runDrops BTState.init 5).2 =
      [(some 1000, false), (some 2000, false), (some 4000, false), (some 8000, false),
       (some 10000, false)] ∧
    (runDrops BTState.init 6).2 =
      [(some 1000, false), (some 2000, false), (some 4000, false), (some 8000, false),
       (some 10000, false), (none, true)] ∧
    (∀ s : BTState, ¬ s.reconnectAttempts < maxReconnectAttempts →
      (onDisconnected s).2.1 = none ∧ (onDisconnected s).2.2 = true) ∧
    (∀ s : BTState, (connectSuccess s).reconnectAttempts = 0) := by
  refine ⟨?_, by decide, by decide, ?_, fun s => rfl⟩
  · intro s h
    simp [onDisconnected, h]
  · intro s h
    simp [onDisconnected, h]

/-- C4 witness: the backoff formula instantiated at attempt counter 3 gives
an 8000 ms delay. -/
theorem reconnectBackoff_spec_witness :
    (onDisconnected ⟨false, false, 3, none⟩).2.1 = some 8000 := by
  have h := reconnectBackoff_spec.1 ⟨false, false, 3, none⟩ (by decide)
  simpa using h.1

/-- C5: the repetition detector uses `flexedThreshold = target × 0.3` and
`extendedThreshold = min(target + 30, target × 1.5)`, starts extended,
transitions extended→flexed exactly when the angle exceeds the extended
threshold, transitions flexed→extended — counting one repetition at that
moment — exactly when the angle drops below the flexed threshold; for
target 90 the sequence [10, 95, 100, 20, 10] produces 0 reps, and for
target 60 the sequence [10, 95, 15] produces exactly 1 rep, at the final
sample. -/
theorem repDetector_spec :
    (∀ target : ℚ, flexedThreshold target = target * 0.3 ∧
      extendedThreshold target = min (target + 30) (target * 1.5)) ∧
    (∀ target angle : ℚ, repStep target .extended angle =
      (if extendedThreshold target < angle then (.flexed, false) else (.extended, false))) ∧
    (∀ target angle : ℚ, repStep target .flexed angle =
      (if angle < flexedThreshold target then (.extended, true) else (.flexed, false))) ∧
    countReps 90 [10, 95, 100, 20, 10] = 0 ∧
    countReps 60 [10, 95, 15] = 1 ∧
    (runRepFlags 60 .extended [10, 95, 15]).2 = [false, false, true] := by
  refine ⟨fun t => ⟨rfl, rfl⟩, ?_, ?_, ?_, ?_, ?_⟩
  · intro t a
    simp [repStep]
  · intro t a
    simp [repStep]
  · norm_num [countReps, runRepFlags, repStep, flexedThreshold, extendedThreshold, min_def]
    decide
  · norm_num [countReps, runRepFlags, repStep, flexedThreshold, extendedThreshold, min_def]
    decide
  · norm_num [runRepFlags, repStep, flexedThreshold, extendedThreshold, min_def]
    decide

/-- C9: for every orientation `q` the relative rotation of `q` against itself
is a pure-scalar quaternion, its X-Y-Z Euler angles are all zero, and
`calculateJointAngle q q = 0`. -/
theorem calculateJointAngle_self_zero (q : Quat) :
    quatMul (quatConj q) q = ⟨q.qw ^ 2 + q.qx ^ 2 + q.qy ^ 2 + q.qz ^ 2, 0, 0, 0⟩ ∧
    eulerXYZ (quatMul (quatConj q) q) = (0, 0, 0) ∧
    calculateJointAngle q q = 0 := by
  refine ⟨quatConj_mul_self q, ?_, ?_⟩
  · rw [quatConj_mul_self q, eulerXYZ_pure_scalar]
  · simp only [calculateJointAngle, quatConj_mul_self q, eulerXYZ_pure_scalar]
    norm_num

/-- C1: evaluation at the failing input. With metrics on which only the
weight-distribution rule triggers (both ROMs 60°, zero asymmetry and
instability, 20% weight imbalance), `generateDiagnosis` returns a Normal
diagnosis TOGETHER WITH the weight-imbalance diagnosis, because the
`diagnoses.length === 0` Normal check runs before the weight-distribution
check. -/
theorem generateDiagnosis_weight_only_emits_normal :
    generateDiagnosis cexWeightMetrics =
      [⟨.NORMAL, .normal, none⟩, ⟨.WEIGHT_IMBALANCE, .mild, some .both⟩] := by
  norm_num [generateDiagnosis, romSeverity, JSNum.lt, cexWeightMetrics]

/-- C10: on an empty session (zero collected packets) the per-leg ROM is the
max-minus-min reduction over empty lists and comes out -Infinity, which
satisfies the `ROM < 50` rule for both legs, so `analyze()` returns severe
LimitedROM diagnoses for both legs and overall status needs_attention instead
of raising an error or returning an empty-session result. -/
theorem analyze_empty_session (t now : ℝ) :
    analyzeRangeOfMotion (GaitState.reset t) = (.ninf, .ninf) ∧
    (analyze (GaitState.reset t) now).metrics.rightKneeROM = .ninf ∧
    (analyze (GaitState.reset t) now).metrics.leftKneeROM = .ninf ∧
    (analyze (GaitState.reset t) now).diagnoses =
      [⟨.LIMITED_ROM_RIGHT, .severe, some .right⟩,
       ⟨.LIMITED_ROM_LEFT, .severe, some .left⟩] ∧
    (analyze (GaitState.reset t) now).overallStatus = .needs_attention := by
  refine ⟨rfl, rfl, rfl, ?_, ?_⟩ <;>
    · simp only [analyze, GaitState.reset, analyzeRangeOfMotion, analyzeAsymmetry,
        analyzeLateralStability, analyzeWeightDistribution, rightAnglesOf, leftAnglesOf,
        lateralMovements, jsMean, JSNum.listMax, JSNum.listMin, JSNum.listSum,
        List.map_nil, List.flatMap_nil, List.foldl_nil, List.length_nil, Nat.cast_zero,
        JSNum.sub, JSNum.add, JSNum.neg, JSNum.abs, JSNum.div, JSNum.sqrt,
        generateDiagnosis, romSeverity, JSNum.lt]
      norm_num

/-- C8: `collectGaitData` is a no-op returning the unchanged step count on an
invalid packet; on a valid packet it appends to the session history and both
weight histories, updates `lastPelvisPitch` on every call, and increments the
step counter exactly when the post-push history has at least two samples and
the pelvis pitch rose by more than 0.15 rad. -/
theorem collectGaitData_spec (s : GaitState) (p : SensorPacket) :
    (¬ isValidPacket p → collectGaitData s p = (s, s.stepCount)) ∧
    (isValidPacket p →
      (collectGaitData s p).1.sensorHistory = s.sensorHistory ++ [p] ∧
      (collectGaitData s p).1.weightLeft = s.weightLeft ++ [p.left_wt] ∧
      (collectGaitData s p).1.weightRight = s.weightRight ++ [p.right_wt] ∧
      (collectGaitData s p).1.lastPelvisPitch = pelvisPitch p ∧
      (collectGaitData s p).2 = (collectGaitData s p).1.stepCount ∧
      ((collectGaitData s p).1.stepCount = s.stepCount + 1 ↔
        2 ≤ (s.sensorHistory ++ [p]).length ∧
        0.15 < |pelvisPitch p - s.lastPelvisPitch| ∧ s.lastPelvisPitch < pelvisPitch p) ∧
      ((collectGaitData s p).1.stepCount = s.stepCount + 1 ∨
        (collectGaitData s p).1.stepCount = s.stepCount)) := by
  constructor
  · intro h
    simp [collectGaitData, h]
  · intro h
    simp only [collectGaitData, if_pos h]
    refine ⟨trivial, trivial, trivial, trivial, trivial, ?_, ?_⟩
    · split_ifs with h1 h2
      · exact iff_of_true rfl ⟨by omega, h2.1, h2.2⟩
      · refine iff_of_false (by omega) ?_
        rintro ⟨-, hd, hr⟩
        exact h2 ⟨hd, hr⟩
      · exact iff_of_false (by omega)
          (fun hc => h1 (lt_of_lt_of_le one_lt_two hc.1))
    · split_ifs <;> simp

/-- C8 witness: the valid-packet clause applied to the identity packet on a
fresh session. -/
theorem collectGaitData_spec_witness :
    (collectGaitData (GaitState.reset 0) idPacket).1.sensorHistory = [idPacket] ∧
    (collectGaitData (GaitState.reset 0) idPacket).1.lastPelvisPitch = pelvisPitch idPacket := by
  have hv : isValidPacket idPacket := by
    intro sid
    have h1 : (1 : ℝ) * 1 + 0 * 0 + 0 * 0 + 0 * 0 = 1 := by norm_num
    cases sid <;>
      · simp only [idPacket, SensorSet.get, quatMagnitude, idQuat, h1, Real.sqrt_one]
        norm_num
  have h := (collectGaitData_spec (GaitState.reset 0) idPacket).2 hv
  exact ⟨by simpa [GaitState.reset] using h.1, h.2.2.2.1⟩

/-- C3 (amended): `processSensorPacket` returns a fresh top-level packet that
keeps the input's timestamp, weights, battery and status and carries the
processed readings — but, because `{ ...packet }` is a shallow copy, the
processed readings are also written into the input packet's shared `sensors`
record, so after the call the input packet holds the processed readings too
(its top-level scalar fields are untouched). -/
theorem processSensorPacket_spec (st : MapperState) (p : SensorPacket) (b : Bool) :
    (processSensorPacket st p b).1 =
      { p with sensors := (processSensors st p.sensors b).1 } ∧
    (processSensorPacket st p b).2.1 = (processSensorPacket st p b).1 ∧
    (processSensorPacket st p b).2.1.timestamp = p.timestamp ∧
    (processSensorPacket st p b).2.1.left_wt = p.left_wt ∧
    (processSensorPacket st p b).2.1.right_wt = p.right_wt ∧
    (processSensorPacket st p b).2.1.battery = p.battery ∧
    (processSensorPacket st p b).2.1.status = p.status ∧
    (processSensorPacket st p b).2.2 = (processSensors st p.sensors b).2 :=
  ⟨rfl, rfl, rfl, rfl, rfl, rfl, rfl, rfl⟩

/-- C3 counterexample: with a stored pelvis calibration offset and smoothing
disabled, the caller's input packet does NOT come out unchanged — its pelvis
reading has been overwritten with the calibrated value. -/
theorem processSensorPacket_mutates_input_cex :
    (processSensorPacket cexMapper idPacket false).2.1.sensors.pelvis ≠
      idPacket.sensors.pelvis := by
  norm_num [processSensorPacket, processSensors, processOne, applyCalibration, cexMapper,
    idPacket, idQuat, offsetX, quatMul, quatConj, Quat.mk.injEq]

/-- C6 (amended): with a stored offset, `applyCalibration` returns the
reading composed on the RIGHT with the conjugated (for unit offsets:
inverted) offset — `reading ⊗ offset*`, not `offset* ⊗ reading`; with no
stored offset the reading is returned unchanged. -/
theorem applyCalibration_spec (st : MapperState) (q : Quat) (sid : SensorId) :
    (st.calibrationOffsets sid = none → applyCalibration st q sid = q) ∧
    (∀ o : Quat, st.calibrationOffsets sid = some o →
      applyCalibration st q sid = quatMul q (quatConj o)) := by
  constructor
  · intro h
    simp [applyCalibration, h]
  · intro o h
    simp [applyCalibration, h]

/-- C6 witness: both clauses instantiated on the concrete mapper state. -/
theorem applyCalibration_spec_witness :
    applyCalibration cexMapper readingY .pelvis = quatMul readingY (quatConj offsetX) ∧
    applyCalibration cexMapper readingY .right_thigh = readingY :=
  ⟨(applyCalibration_spec cexMapper readingY .pelvis).2 offsetX (by simp [cexMapper]),
   (applyCalibration_spec cexMapper readingY .right_thigh).1 (by simp [cexMapper])⟩

/-- C6 counterexample: for the stored unit offset `offsetX` and reading
`readingY`, the code returns `reading ⊗ offset⁻¹ = (0,0,0,1)` while the
claimed `offset⁻¹ ⊗ reading` is `(0,0,0,-1)`; the two differ. -/
theorem applyCalibration_order_cex :
    applyCalibration cexMapper readingY .pelvis = ⟨0, 0, 0, 1⟩ ∧
    quatMul (quatConj offsetX) readingY = ⟨0, 0, 0, -1⟩ ∧
    applyCalibration cexMapper readingY .pelvis ≠ quatMul (quatConj offsetX) readingY := by
  refine ⟨?_, ?_, ?_⟩ <;>
    norm_num [applyCalibration, cexMapper, readingY, offsetX, quatMul, quatConj,
      Quat.mk.injEq]

/-- Helper: the `||` default keeps a parsed nonzero number. -/
theorem jsOrDefault_num {v : Option JVal} {x d : ℝ} (hx : x ≠ 0)
    (h : v = some (.num x)) : jsOrDefault v d = x := by
  subst h
  simp [jsOrDefault, hx]

/-- Helper: the `||` default replaces a falsy component (0, NaN or missing). -/
theorem jsOrDefault_falsy {v : Option JVal} {d : ℝ}
    (h : v = some (.num 0) ∨ v = some .nan ∨ v = none) : jsOrDefault v d = d := by
  rcases h with h | h | h <;> subst h <;> simp [jsOrDefault]

/-- C7 (amended): in the legacy JSON decode path, a quaternion component
(string or object form) that parses to a NONZERO number is preserved exactly;
a component that is missing, fails to parse (NaN) or equals 0 is replaced by
its identity-quaternion default (1 for qw, 0 for qx, qy, qz), because the
`||` defaulting treats the number 0 as falsy. -/
theorem parseQuaternion_spec (d : QuatWire) :
    (∀ x : ℝ, x ≠ 0 → (wireComponents d).1 = some (.num x) → (parseQuaternion d).qw = x) ∧
    ((wireComponents d).1 = some (.num 0) ∨ (wireComponents d).1 = some .nan ∨
      (wireComponents d).1 = none → (parseQuaternion d).qw = 1) ∧
    (∀ x : ℝ, x ≠ 0 → (wireComponents d).2.1 = some (.num x) → (parseQuaternion d).qx = x) ∧
    ((wireComponents d).2.1 = some (.num 0) ∨ (wireComponents d).2.1 = some .nan ∨
      (wireComponents d).2.1 = none → (parseQuaternion d).qx = 0) ∧
    (∀ x : ℝ, x ≠ 0 → (wireComponents d).2.2.1 = some (.num x) →
      (parseQuaternion d).qy = x) ∧
    ((wireComponents d).2.2.1 = some (.num 0) ∨ (wireComponents d).2.2.1 = some .nan ∨
      (wireComponents d).2.2.1 = none → (parseQuaternion d).qy = 0) ∧
    (∀ x : ℝ, x ≠ 0 → (wireComponents d).2.2.2 = some (.num x) →
      (parseQuaternion d).qz = x) ∧
    ((wireComponents d).2.2.2 = some (.num 0) ∨ (wireComponents d).2.2.2 = some .nan ∨
      (wireComponents d).2.2.2 = none → (parseQuaternion d).qz = 0) := by
  cases d <;>
    exact ⟨fun x hx h => jsOrDefault_num hx h, fun h => jsOrDefault_falsy h,
           fun x hx h => jsOrDefault_num hx h, fun h => jsOrDefault_falsy h,
           fun x hx h => jsOrDefault_num hx h, fun h => jsOrDefault_falsy h,
           fun x hx h => jsOrDefault_num hx h, fun h => jsOrDefault_falsy h⟩

/-- C7 witness: a string-form quaternion whose parts parsed to
`[0, 2, NaN]` (qz missing) decodes with qw defaulted to 1, qx preserved as 2
and qz defaulted to 0. -/
theorem parseQuaternion_spec_witness :
    (parseQuaternion (.qstr [.num 0, .num 2, .nan])).qw = 1 ∧
    (parseQuaternion (.qstr [.num 0, .num 2, .nan])).qx = 2 ∧
    (parseQuaternion (.qstr [.num 0, .num 2, .nan])).qz = 0 :=
  ⟨(parseQuaternion_spec (.qstr [.num 0, .num 2, .nan])).2.1 (Or.inl rfl),
   (parseQuaternion_spec (.qstr [.num 0, .num 2, .nan])).2.2.1 2 (by norm_num) rfl,
   (parseQuaternion_spec (.qstr [.num 0, .num 2, .nan])).2.2.2.2.2.2.2 (Or.inr (Or.inr rfl))⟩

/-- C7 counterexample: the parsed parts `[0, 1, 0, 0]` — all valid numbers —
do NOT decode to exactly those numbers: qw comes out 1, not 0. -/
theorem parseQuaternion_zero_component_cex :
    parseQuaternion (.qstr [.num 0, .num 1, .num 0, .num 0]) = ⟨1, 1, 0, 0⟩ ∧
    parseQuaternion (.qstr [.num 0, .num 1, .num 0, .num 0]) ≠ ⟨0, 1, 0, 0⟩ := by
  norm_num [parseQuaternion, jsOrDefault, Quat.mk.injEq]

/-! ### Association-list lemmas for the `exerciseMap` model (claim C2) -/

theorem keyeq_eq_true {k : String} {kv : String × RecommendedExercise}
    (h : kv.1 = k) : keyeq k kv = true := by
  simp [keyeq, h]

theorem keyeq_eq_false {k : String} {kv : String × RecommendedExercise}
    (h : kv.1 ≠ k) : keyeq k kv = false := by
  simp [keyeq, h]

theorem keyeq_pair_neg {k k' : String} {v : RecommendedExercise} (h : k ≠ k') :
    ¬ keyeq k' (k, v) = true := by
  simp only [keyeq, decide_eq_true_eq]
  exact h

theorem any_key_iff (m : List (String × RecommendedExercise)) (k : String) :
    (m.any fun kv => kv.1 = k) = true ↔ k ∈ m.map Prod.fst := by
  simp [List.any_eq_true, List.mem_map]

theorem mapSet_keys (m : List (String × RecommendedExercise)) (k : String)
    (v : RecommendedExercise) :
    (mapSet m k v).map Prod.fst =
      if k ∈ m.map Prod.fst then m.map Prod.fst else m.map Prod.fst ++ [k] := by
  unfold mapSet
  by_cases hk : k ∈ m.map Prod.fst
  · rw [if_pos ((any_key_iff m k).mpr hk), if_pos hk, List.map_map]
    refine List.map_congr_left ?_
    intro kv _
    by_cases h : kv.1 = k <;> simp [Function.comp, h]
  · rw [if_neg (fun hc => hk ((any_key_iff m k).mp hc)), if_neg hk, List.map_append]
    rfl

theorem foldl_mapSet_keys_nodup (stream : List (String × RecommendedExercise)) :
    ∀ m : List (String × RecommendedExercise), (m.map Prod.fst).Nodup →
      ((stream.foldl (fun m kv => mapSet m kv.1 kv.2) m).map Prod.fst).Nodup := by
  induction stream with
  | nil => exact fun m hm => hm
  | cons kv rest ih =>
      intro m hm
      simp only [List.foldl_cons]
      apply ih
      rw [mapSet_keys]
      split_ifs with hk
      · exact hm
      · simp [List.nodup_append, hm, hk]

theorem jsMapFold_keys_nodup (stream : List (String × RecommendedExercise)) :
    ((jsMapFold stream).map Prod.fst).Nodup :=
  foldl_mapSet_keys_nodup stream [] (by simp)

theorem find?_map_update_self :
    ∀ (m : List (String × RecommendedExercise)) (k : String) (v : RecommendedExercise),
      k ∈ m.map Prod.fst →
      (m.map fun kv => if kv.1 = k then (k, v) else kv).find? (keyeq k) = some (k, v) := by
  intro m k v
  induction m with
  | nil => intro h; simp at h
  | cons hd tl ih =>
      intro h
      rw [List.map_cons]
      by_cases hh : hd.1 = k
      · rw [if_pos hh]
        exact List.find?_cons_of_pos _ (keyeq_eq_true rfl)
      · rw [if_neg hh, List.find?_cons_of_neg _ (by simp [keyeq_eq_false hh])]
        apply ih
        rw [List.map_cons] at h
        rcases List.mem_cons.mp h with h1 | h1
        · exact absurd h1.symm hh
        · exact h1

theorem find?_map_update_other
    (m : List (String × RecommendedExercise)) (k k' : String) (v : RecommendedExercise)
    (hne : k' ≠ k) :
    (m.map fun kv => if kv.1 = k then (k, v) else kv).find? (keyeq k') =
      m.find? (keyeq k') := by
  induction m with
  | nil => rfl
  | cons hd tl ih =>
      rw [List.map_cons]
      by_cases hh : hd.1 = k
      · rw [if_pos hh, List.find?_cons_of_neg _ (keyeq_pair_neg (Ne.symm hne)),
          List.find?_cons_of_neg _
            (by simp only [keyeq, decide_eq_true_eq]; rw [hh]; exact Ne.symm hne), ih]
      · rw [if_neg hh]
        by_cases hp : hd.1 = k'
        · rw [List.find?_cons_of_pos _ (keyeq_eq_true hp),
            List.find?_cons_of_pos _ (keyeq_eq_true hp)]
        · rw [List.find?_cons_of_neg _ (by simp [keyeq_eq_false hp]),
            List.find?_cons_of_neg _ (by simp [keyeq_eq_false hp]), ih]

theorem find?_mapSet_self (m : List (String × RecommendedExercise)) (k : String)
    (v : RecommendedExercise) : (mapSet m k v).find? (keyeq k) = some (k, v) := by
  unfold mapSet
  split_ifs with h
  · exact find?_map_update_self m k v ((any_key_iff m k).mp h)
  · rw [List.find?_append, List.find?_eq_none.mpr, Option.none_or]
    · exact List.find?_cons_of_pos _ (keyeq_eq_true rfl)
    · intro kv hkv
      simp only [keyeq, decide_eq_true_eq]
      intro hc
      exact h (List.any_eq_true.mpr ⟨kv, hkv, by simp [hc]⟩)

theorem find?_mapSet_other (m : List (String × RecommendedExercise)) (k : String)
    (v : RecommendedExercise) (k' : String) (hne : k' ≠ k) :
    (mapSet m k v).find? (keyeq k') = m.find? (keyeq k') := by
  unfold mapSet
  split_ifs with h
  · exact find?_map_update_other m k k' v hne
  · rw [List.find?_append]
    have hnone : List.find? (keyeq k') [(k, v)] = none := by
      rw [List.find?_cons_of_neg _ (keyeq_pair_neg (Ne.symm hne))]
      rfl
    rw [hnone, Option.or_none]

theorem jsMapFold_append (stream : List (String × RecommendedExercise))
    (kv : String × RecommendedExercise) :
    jsMapFold (stream ++ [kv]) = mapSet (jsMapFold stream) kv.1 kv.2 := by
  simp [jsMapFold, List.foldl_append]

theorem jsMapFold_find? (stream : List (String × RecommendedExercise)) (k : String) :
    (jsMapFold stream).find? (keyeq k) =
      ((stream.filter (keyeq k)).map Prod.snd).getLast?.map (fun v => (k, v)) := by
  induction stream using List.reverseRecOn with
  | nil => rfl
  | append_singleton l kv ih =>
      rw [jsMapFold_append]
      by_cases hk : kv.1 = k
      · subst hk
        rw [find?_mapSet_self, List.filter_append, List.map_append]
        have hkv : List.filter (keyeq kv.1) [kv] = [kv] := by
          simp [List.filter_cons, keyeq_eq_true rfl]
        rw [hkv]
        simp [List.getLast?_concat]
      · rw [find?_mapSet_other _ _ _ _ (fun hc => hk hc.symm), ih, List.filter_append]
        have hkv : List.filter (keyeq k) [kv] = [] := by
          simp [List.filter_cons, keyeq_eq_false hk]
        rw [hkv, List.append_nil]

theorem find?_eq_of_mem_nodup :
    ∀ (m : List (String × RecommendedExercise)), (m.map Prod.fst).Nodup →
      ∀ kv : String × RecommendedExercise, kv ∈ m → m.find? (keyeq kv.1) = some kv := by
  intro m
  induction m with
  | nil => intro _ kv hkv; simp at hkv
  | cons hd tl ih =>
      intro hm kv hkv
      rcases List.mem_cons.mp hkv with h | h
      · subst h
        exact List.find?_cons_of_pos _ (keyeq_eq_true rfl)
      · have hne : hd.1 ≠ kv.1 := by
          intro hc
          have hmem : kv.1 ∈ tl.map Prod.fst := List.mem_map.mpr ⟨kv, h, rfl⟩
          rw [List.map_cons, List.nodup_cons] at hm
          exact hm.1 (hc ▸ hmem)
        rw [List.find?_cons_of_neg _ (by simp [keyeq_eq_false hne])]
        rw [List.map_cons, List.nodup_cons] at hm
        exact ih hm.2 kv h

theorem mem_mapSet (m : List (String × RecommendedExercise)) (k : String)
    (v : RecommendedExercise) {kv : String × RecommendedExercise}
    (h : kv ∈ mapSet m k v) : kv ∈ m ∨ kv = (k, v) := by
  unfold mapSet at h
  split_ifs at h with hg
  · rcases List.mem_map.mp h with ⟨kv0, hkv0, heq⟩
    by_cases hh : kv0.1 = k
    · right
      rw [← heq, if_pos hh]
    · left
      rw [← heq, if_neg hh]
      exact hkv0
  · rcases List.mem_append.mp h with h1 | h1
    · left; exact h1
    · right; simpa using h1

theorem mem_foldl_mapSet (stream : List (String × RecommendedExercise)) :
    ∀ (m : List (String × RecommendedExercise)) (kv : String × RecommendedExercise),
      kv ∈ stream.foldl (fun m kv => mapSet m kv.1 kv.2) m → kv ∈ m ∨ kv ∈ stream := by
  induction stream with
  | nil => exact fun m kv h => Or.inl h
  | cons hd tl ih =>
      intro m kv h
      simp only [List.foldl_cons] at h
      rcases ih _ kv h with h2 | h2
      · rcases mem_mapSet _ _ _ h2 with h3 | h3
        · left; exact h3
        · right
          rw [h3]
          simp
      · right
        exact List.mem_cons_of_mem _ h2

theorem mem_jsMapFold (stream : List (String × RecommendedExercise))
    {kv : String × RecommendedExercise} (h : kv ∈ jsMapFold stream) : kv ∈ stream := by
  rcases mem_foldl_mapSet stream [] kv h with h1 | h1
  · simp at h1
  · exact h1

theorem keys_subset_mapSet (m : List (String × RecommendedExercise)) (k : String)
    (v : RecommendedExercise) (k' : String) (h : k' ∈ m.map Prod.fst) :
    k' ∈ (mapSet m k v).map Prod.fst := by
  rw [mapSet_keys]
  split_ifs with hk
  · exact h
  · exact List.mem_append_left _ h

theorem key_mem_mapSet (m : List (String × RecommendedExercise)) (k : String)
    (v : RecommendedExercise) : k ∈ (mapSet m k v).map Prod.fst := by
  rw [mapSet_keys]
  split_ifs with hk
  · exact hk
  · exact List.mem_append_right _ (by simp)

theorem keys_mem_foldl (stream : List (String × RecommendedExercise)) :
    ∀ (m : List (String × RecommendedExercise)) (k : String), k ∈ m.map Prod.fst →
      k ∈ (stream.foldl (fun m kv => mapSet m kv.1 kv.2) m).map Prod.fst := by
  induction stream with
  | nil => exact fun m k h => h
  | cons hd tl ih =>
      intro m k h
      simp only [List.foldl_cons]
      exact ih _ _ (keys_subset_mapSet _ _ _ _ h)

theorem stream_key_mem_fold :
    ∀ (stream : List (String × RecommendedExercise))
      (m : List (String × RecommendedExercise)) (kv : String × RecommendedExercise),
      kv ∈ stream →
      kv.1 ∈ (stream.foldl (fun m kv => mapSet m kv.1 kv.2) m).map Prod.fst := by
  intro stream
  induction stream with
  | nil => intro m kv h; simp at h
  | cons hd tl ih =>
      intro m kv h
      simp only [List.foldl_cons]
      rcases List.mem_cons.mp h with h1 | h1
      · subst h1
        exact keys_mem_foldl tl _ _ (key_mem_mapSet m kv.1 kv.2)
      · exact ih _ _ h1

theorem candidateStream_selfKeyed (ds : List GaitDiagnosis) :
    ∀ kv ∈ candidateStream ds, kv.2.exerciseId = kv.1 := by
  intro kv hkv
  rw [candidateStream, List.mem_flatMap] at hkv
  obtain ⟨d, -, hm⟩ := hkv
  revert hm
  cases d.type <;> intro hm <;>
    simp only [candidatesFor, List.mem_cons, List.not_mem_nil, or_false] at hm <;>
    rcases hm with h | h <;> subst h <;> rfl

/-- C2 (amended): `recommendExercises` deduplicates candidates by exercise id
with LAST-write-wins (the retained entry, including its priority, is the one
of the last diagnosis in order that recommended that id — not the
highest-priority one), and the result is sorted descending by priority. -/
theorem recommendExercises_spec (ds : List GaitDiagnosis) :
    List.Sorted priDesc (recommendExercises ds) ∧
    ((recommendExercises ds).map (fun e => e.exerciseId)).Nodup ∧
    (∀ e ∈ recommendExercises ds,
      (((candidateStream ds).filter (keyeq e.exerciseId)).map Prod.snd).getLast? = some e) ∧
    (∀ kv ∈ candidateStream ds, ∃ e ∈ recommendExercises ds, e.exerciseId = kv.1) := by
  have hperm : List.Perm (recommendExercises ds)
      ((jsMapFold (candidateStream ds)).map Prod.snd) :=
    List.perm_insertionSort priDesc _
  have hself : ∀ kv ∈ jsMapFold (candidateStream ds), kv.2.exerciseId = kv.1 :=
    fun kv hkv => candidateStream_selfKeyed ds kv (mem_jsMapFold _ hkv)
  have hmapeq : ((jsMapFold (candidateStream ds)).map Prod.snd).map (fun e => e.exerciseId)
      = (jsMapFold (candidateStream ds)).map Prod.fst := by
    rw [List.map_map]
    exact List.map_congr_left (fun kv hkv => hself kv hkv)
  refine ⟨List.sorted_insertionSort priDesc _, ?_, ?_, ?_⟩
  · exact ((hperm.map (fun e => e.exerciseId)).nodup_iff).mpr
      (hmapeq ▸ jsMapFold_keys_nodup (candidateStream ds))
  · intro e he
    have hev : e ∈ (jsMapFold (candidateStream ds)).map Prod.snd := hperm.mem_iff.mp he
    rcases List.mem_map.mp hev with ⟨kv, hkv, hsnd⟩
    have hkey : kv.1 = e.exerciseId := by
      rw [← hsnd]
      exact (hself kv hkv).symm
    have hfind := find?_eq_of_mem_nodup _ (jsMapFold_keys_nodup (candidateStream ds)) kv hkv
    rw [jsMapFold_find?] at hfind
    rw [← hkey]
    cases hlast : (((candidateStream ds).filter (keyeq kv.1)).map Prod.snd).getLast? with
    | none =>
        rw [hlast] at hfind
        simp at hfind
    | some w =>
        rw [hlast] at hfind
        have h2 : (kv.1, w) = kv := by simpa using hfind
        exact congrArg some ((congrArg Prod.snd h2).trans hsnd)
  · intro kv hkv
    have hmem : kv.1 ∈ (jsMapFold (candidateStream ds)).map Prod.fst :=
      stream_key_mem_fold (candidateStream ds) [] kv hkv
    rcases List.mem_map.mp hmem with ⟨entry, hentry, hfst⟩
    refine ⟨entry.2, hperm.symm.mem_iff.mp (List.mem_map.mpr ⟨entry, hentry, rfl⟩), ?_⟩
    rw [hself entry hentry, hfst]

/-- C2 witness: the last-write clause of the spec instantiated on the
concrete diagnosis list where exercise "3" is recommended twice. -/
theorem recommendExercises_spec_witness :
    (((candidateStream cexDiagnoses).filter (keyeq "3")).map Prod.snd).getLast? =
      some ⟨"3", "Straight Leg Raises",
        "Builds unilateral strength to correct muscle imbalances", .medium⟩ := by
  have h := (recommendExercises_spec cexDiagnoses).2.2.1
    ⟨"3", "Straight Leg Raises",
      "Builds unilateral strength to correct muscle imbalances", .medium⟩ (by decide)
  simpa using h

/-- C2 counterexample: in `cexDiagnoses`, exercise id "3" is assigned
priority high (by the weight-imbalance diagnosis) and then priority medium
(by the asymmetric-gait diagnosis); the single retained entry carries MEDIUM,
not the higher of the two priorities. -/
theorem recommendExercises_highest_priority_cex :
    ("3", (⟨"3", "Straight Leg Raises",
      "Improves single-leg strength to correct weight distribution imbalance",
      .high⟩ : RecommendedExercise)) ∈ candidateStream cexDiagnoses ∧
    ("3", (⟨"3", "Straight Leg Raises",
      "Builds unilateral strength to correct muscle imbalances",
      .medium⟩ : RecommendedExercise)) ∈ candidateStream cexDiagnoses ∧
    (recommendExercises cexDiagnoses).filter (fun e => e.exerciseId == "3") =
      [⟨"3", "Straight Leg Raises",
        "Builds unilateral strength to correct muscle imbalances", .medium⟩] ∧
    Priority.medium ≠ Priority.high := by
  refine ⟨by decide, by decide, by decide, by decide⟩

end KneeBuddy
